import Mathlib

/-!
Shallow embedding of the LSP job notifier (src/config.py, src/notifications.py,
src/scraper.py, src/main.py) and proofs about the behaviour its specification
describes.  Selenium/DOM reads, network sends and SMTP are external
collaborators: each is modelled as explicit input data (the text of cells,
whether a selector finds an element, whether a send raises), and Python
exceptions of those collaborators are modelled as explicit outcome
constructors.  The pure control flow of the repository's functions is
translated statement by statement.
-/

namespace LSP

/-! ## String helpers mirroring the Python primitives used by the source -/

/-- `startsWithL pat s`: the char list `pat` is an initial segment of `s`. -/
def startsWithL : List Char → List Char → Bool
  | [], _ => true
  | _ :: _, [] => false
  | a :: as, b :: bs => a == b && startsWithL as bs

/-- `containsSubL pat s`: the char list `pat` occurs contiguously inside `s`. -/
def containsSubL (pat : List Char) : List Char → Bool
  | [] => startsWithL pat []
  | b :: bs => startsWithL pat (b :: bs) || containsSubL pat bs

/-- Python's substring test `pat in s` on strings. -/
def strIn (pat s : String) : Bool := containsSubL pat.toList s.toList

/-- Python's `str.isdigit` for the ASCII content the scraper handles:
nonempty and every character a digit. -/
def isDigitStr (s : String) : Bool := s ≠ "" && s.toList.all Char.isDigit

/-- Python's `str.lower` on one character, for the ASCII content the scraper
handles: uppercase ASCII letters shift to lowercase. -/
def lowerChar (c : Char) : Char :=
  if 65 ≤ c.toNat ∧ c.toNat ≤ 90 then Char.ofNat (c.toNat + 32) else c

/-- Python's `str.lower` for the ASCII content the scraper handles. -/
def lowerStr (s : String) : String := String.mk (s.toList.map lowerChar)

/-- Python truthiness of an optional string: `None` and `""` are falsy
(`job_id` in the source is either `None` or a string). -/
def truthy : Option String → Bool
  | none => false
  | some s => s ≠ ""

/-- Python's `s or d` for strings: the default replaces the empty string. -/
def orElseStr (s d : String) : String := if s = "" then d else s

/-! ## Data model: DOM rows and the job record -/

/-- One grid cell as the scraper reads it: its `col-id` attribute
(`cell.get_attribute("col-id")`, absent = `none`) and its stripped text. -/
structure Cell where
  colId : Option String
  text : String
deriving DecidableEq

/-- One grid row as the scraper reads it: its `row-id` attribute, its cells,
and whether reading it raises (a stale-element style error, caught per row at
scraper.py:590-592, which skips the row). -/
structure Row where
  rowId : Option String
  cells : List Cell
  raises : Bool
deriving DecidableEq

/-- The `job_details` dict built by the scraper (scraper.py:569-577 and
scraper.py:859-867). -/
structure Job where
  id : Option String
  title : String
  client : String
  date : String
  duration : String
  descr : String
  location : String
deriving DecidableEq

/-! ## Open-jobs extraction: cell-to-field mapping (check_jobs_direct) -/

/-- scraper.py:544-558 — the col-id keyed pass of `check_jobs_direct` over the
row's cells: `requestID` fills `job_id` only while `job_id` is falsy;
`customerName`, `interpretationTime`, `estimateDuration` fill the fields.
Accumulators are `(job_id, client_name, appointment_time, duration)`. -/
def colIdPass (jid : Option String) (client time dur : String) :
    List Cell → Option String × String × String × String
  | [] => (jid, client, time, dur)
  | c :: cs =>
    if c.colId = some "requestID" ∧ truthy jid = false then
      colIdPass (some c.text) client time dur cs
    else if c.colId = some "customerName" then
      colIdPass jid c.text time dur cs
    else if c.colId = some "interpretationTime" then
      colIdPass jid client c.text dur cs
    else if c.colId = some "estimateDuration" then
      colIdPass jid client time c.text cs
    else
      colIdPass jid client time dur cs

/-- Text of the `i`-th cell of a row, `""` when out of range. -/
def cellText (cells : List Cell) (i : Nat) : String :=
  ((cells.getD i ⟨none, ""⟩)).text

/-- scraper.py:560-566 — positional fallback of `check_jobs_direct`: a still
missing field is taken from the cell at a fixed index when the row is long
enough. -/
def openPositional (cells : List Cell) (client time dur : String) :
    String × String × String :=
  let client := if client = "" ∧ 1 < cells.length then cellText cells 1 else client
  let time := if time = "" ∧ 2 < cells.length then cellText cells 2 else time
  let dur := if dur = "" ∧ 3 < cells.length then cellText cells 3 else dur
  (client, time, dur)

/-- scraper.py:569-577 — the `job_details` dict of the open-jobs path; Python's
`or` fills the documented defaults for falsy (empty) fields. -/
def mkOpenJob (jid : Option String) (client time dur : String) : Job where
  id := jid
  title := if client = "" then "Interpretation Job" else "Interpretation for " ++ client
  client := orElseStr client "Unknown Client"
  date := orElseStr time "Unknown Time"
  duration := orElseStr dur "Unknown Duration"
  descr := "Duration: " ++ dur ++ " minutes\nTime: " ++ time ++ "\nClient: " ++ client
  location := orElseStr client "Unknown Location"

/-- scraper.py:534-577 — the whole per-row extraction of `check_jobs_direct`:
`job_id` starts from the `row-id` attribute, then the col-id pass, then the
positional fallback, then the record is built. -/
def openRowJob (r : Row) : Job :=
  let p := colIdPass r.rowId "" "" "" r.cells
  let q := openPositional r.cells p.2.1 p.2.2.1 p.2.2.2
  mkOpenJob p.1 q.1 q.2.1 q.2.2

/-! ## Closed-jobs extraction: cell-to-field mapping (check_closed_jobs) -/

/-- scraper.py:825-834 — the col-id keyed pass of `check_closed_jobs`; it also
accepts the alternate markers `appointmentTime` and `duration`. -/
def closedColIdPass (jid : Option String) (client time dur : String) :
    List Cell → Option String × String × String × String
  | [] => (jid, client, time, dur)
  | c :: cs =>
    if c.colId = some "requestID" ∧ truthy jid = false then
      closedColIdPass (some c.text) client time dur cs
    else if c.colId = some "customerName" then
      closedColIdPass jid c.text time dur cs
    else if c.colId = some "interpretationTime" ∨ c.colId = some "appointmentTime" then
      closedColIdPass jid client c.text dur cs
    else if c.colId = some "estimateDuration" ∨ c.colId = some "duration" then
      closedColIdPass jid client time c.text cs
    else
      closedColIdPass jid client time dur cs

/-- scraper.py:838-847 — one step of the content-shape heuristics, applied to
one cell text: date/time-shaped text fills the appointment time, short
all-digit text fills the duration, remaining non-numeric non-schedule text
fills the client name; each cell feeds at most one field (elif chain). -/
def heuristicStep (client time dur t : String) : String × String × String :=
  if time = "" ∧ (strIn "/" t ∨ strIn ":" t ∨ strIn "AM" t ∨ strIn "PM" t) then
    (client, t, dur)
  else if dur = "" ∧ isDigitStr t = true ∧ t.length ≤ 4 then
    (client, time, t)
  else if client = "" ∧ t ≠ "" ∧ isDigitStr t = false ∧ strIn "/" t = false ∧
      strIn ":" t = false then
    (t, time, dur)
  else
    (client, time, dur)

/-- scraper.py:838-847 — the heuristic loop over all cell texts. -/
def heuristicPass (client time dur : String) : List String → String × String × String
  | [] => (client, time, dur)
  | t :: ts =>
    let p := heuristicStep client time dur t
    heuristicPass p.1 p.2.1 p.2.2 ts

/-- scraper.py:850-855 — positional fallback of `check_closed_jobs` over the
list of cell texts. -/
def closedPositional (texts : List String) (client time dur : String) :
    String × String × String :=
  let client := if client = "" ∧ 1 < texts.length then texts.getD 1 "" else client
  let time := if time = "" ∧ 2 < texts.length then texts.getD 2 "" else time
  let dur := if dur = "" ∧ 3 < texts.length then texts.getD 3 "" else dur
  (client, time, dur)

/-- scraper.py:820-855 — the full closed-jobs field mapping: col-id pass, then
the content heuristics, run only when the client name or the appointment time
is still missing (`if not all([client_name, appointment_time])`), then the
positional fallback.  Returns `(client_name, appointment_time, duration)`. -/
def closedFields (jid : Option String) (cells : List Cell) :
    String × String × String :=
  let p := closedColIdPass jid "" "" "" cells
  let texts := cells.map Cell.text
  let q :=
    if p.2.1 = "" ∨ p.2.2.1 = "" then heuristicPass p.2.1 p.2.2.1 p.2.2.2 texts
    else (p.2.1, p.2.2.1, p.2.2.2)
  closedPositional texts q.1 q.2.1 q.2.2

/-- scraper.py:859-867 — the `job_details` dict of the closed-jobs path. -/
def mkClosedJob (jid : Option String) (client time dur : String)
    (texts : List String) : Job where
  id := jid
  title := if client = "" then "Interpretation Job" else "Interpretation for " ++ client
  client := orElseStr client "Unknown Client"
  date := orElseStr time "Unknown Time"
  duration := orElseStr dur "Unknown Duration"
  descr := String.intercalate "\n" (texts.filter (fun t => t ≠ ""))
  location := orElseStr client "Unknown Location"

/-! ## Deduplication store and the open-jobs pass (check_jobs_direct) -/

/-- scraper.py:582 — the dedup test `job_id not in self.seen_jobs`. -/
def isNewId (seen : List (Option String)) (i : Option String) : Bool :=
  !(decide (i ∈ seen))

/-- scraper.py:585 — `self.seen_jobs.add(job_id)`. -/
def markSeen (seen : List (Option String)) (i : Option String) :
    List (Option String) := i :: seen

/-- scraper.py:523-592 — the seen set after the row loop of
`check_jobs_direct`: a row that raises is skipped (caught per row), a row with
fewer than 4 cells is skipped, and a new id is added as soon as its row is
extracted. -/
def seenAfter (seen : List (Option String)) : List Row → List (Option String)
  | [] => seen
  | r :: rs =>
    if r.raises then seenAfter seen rs
    else if 4 ≤ r.cells.length then
      if isNewId seen (openRowJob r).id then
        seenAfter (markSeen seen (openRowJob r).id) rs
      else seenAfter seen rs
    else seenAfter seen rs

/-- scraper.py:523-592 — the `new_jobs` list returned by the row loop of
`check_jobs_direct`, in row order; a job is appended exactly when its id
passes the dedup test at that moment. -/
def newJobs (seen : List (Option String)) : List Row → List Job
  | [] => []
  | r :: rs =>
    if r.raises then newJobs seen rs
    else if 4 ≤ r.cells.length then
      if isNewId seen (openRowJob r).id then
        openRowJob r :: newJobs (markSeen seen (openRowJob r).id) rs
      else newJobs seen rs
    else newJobs seen rs

/-- Environment of one `check_jobs_direct` call: the outcome of each Open Jobs
tab selector (scraper.py:441-465, find-and-click succeeded?) and the outcome
of the fixed structural chain at-interpreter-jobs → ag-grid-angular → … →
ag-center-cols-container → rows (scraper.py:479-518); `Except.error` is a
raised Selenium exception anywhere on that chain. -/
structure OpenEnv where
  tabOutcomes : List Bool
  gridPath : Except Unit (List Row)

/-- scraper.py:448-465 — whether some tab selector found and clicked the Open
Jobs tab; failure only logs a warning ("attempting to continue anyway"). -/
def tabFound (outcomes : List Bool) : Bool := outcomes.any (fun b => b)

/-- scraper.py:423-609 — `check_jobs_direct`: the tab chain is best-effort
(its outcome does not influence the result), a raised exception on the
structural chain is caught at scraper.py:601-604 and yields `[]`, otherwise
the row loop runs.  Returns `(new_jobs, seen_jobs)`. -/
def checkJobsDirect (seen : List (Option String)) (env : OpenEnv) :
    List Job × List (Option String) :=
  match env.gridPath with
  | Except.error _ => ([], seen)
  | Except.ok rows => (newJobs seen rows, seenAfter seen rows)

/-- All jobs handed to `process_new_jobs` over a whole run: the concatenation
of each cycle's `new_jobs` (scraper.py:390-394), threading the seen set. -/
def runNotified (seen : List (Option String)) : List OpenEnv → List Job
  | [] => []
  | e :: es =>
    (checkJobsDirect seen e).1 ++ runNotified (checkJobsDirect seen e).2 es

/-- The seen set at the end of a whole run. -/
def runSeen (seen : List (Option String)) : List OpenEnv → List (Option String)
  | [] => seen
  | e :: es => runSeen (checkJobsDirect seen e).2 es

/-! ## Closed-jobs selector chains (check_closed_jobs) -/

/-- Outcome of one row selector of `check_closed_jobs` (scraper.py:750-767):
either `find_elements` raised (caught, logged, next selector), or it returned
the rows found within the grid element and, separately, in the whole page. -/
inductive SelOutcome where
  | raisedSel
  | found (inGrid inPage : List Row)
deriving DecidableEq

/-- scraper.py:750-767 — the row-locating chain of `check_closed_jobs`: for
each selector, rows inside the grid element are preferred, then the whole
page; a selector that raises or yields no rows falls through to the next; the
first non-empty result stops the chain.  Returns the rows found together with
how many selectors were attempted. -/
def rowChain : List SelOutcome → List Row × Nat
  | [] => ([], 0)
  | SelOutcome.raisedSel :: rest =>
    let p := rowChain rest
    (p.1, p.2 + 1)
  | SelOutcome.found g pg :: rest =>
    if g ≠ [] then (g, 1)
    else if pg ≠ [] then (pg, 1)
    else
      let p := rowChain rest
      (p.1, p.2 + 1)

/-! ## Notification dispatcher (notifications.py) -/

/-- Outcome of the direct Telegram API call (notifications.py:99):
`requests.post` either returns a status code or raises. -/
inductive ApiResult where
  | status (code : Nat)
  | raisedApi
deriving DecidableEq

/-- The delivery attempts a `notify` call can make, in dispatch order. -/
inductive AttemptKind where
  | botAttempt
  | apiAttempt
  | emailAttempt
deriving DecidableEq

/-- Transport environment of one notification: whether the Telegram bot object
was constructed (notifications.py:28-34), whether its `send_message` succeeds
(`false` = raises, caught at notifications.py:78), the direct API outcome, and
the email channel's configuration and SMTP outcome (`false` = raises, caught
at notifications.py:134). -/
structure NotifyEnv where
  botInit : Bool
  botOk : Bool
  api : ApiResult
  emailConfigured : Bool
  emailOk : Bool
deriving DecidableEq

/-- notifications.py:55-112 — `send_telegram`: one attempt through the bot
library when the bot is initialized, returning `True` immediately on success;
otherwise one direct HTTP API attempt, successful exactly on status 200, with
a raised request counting as failure.  Returns the result and the list of
attempts made, in order. -/
def send_telegram (env : NotifyEnv) : Bool × List AttemptKind :=
  if env.botInit ∧ env.botOk then (true, [AttemptKind.botAttempt])
  else
    let tried := if env.botInit then [AttemptKind.botAttempt] else []
    match env.api with
    | ApiResult.status c => (c = 200, tried ++ [AttemptKind.apiAttempt])
    | ApiResult.raisedApi => (false, tried ++ [AttemptKind.apiAttempt])

/-- notifications.py:114-136 — `send_email`: returns `False` without an
attempt when the channel is not fully configured; otherwise one SMTP attempt
whose raised exception is caught and turned into `False`. -/
def send_email (env : NotifyEnv) : Bool × List AttemptKind :=
  if env.emailConfigured then (env.emailOk, [AttemptKind.emailAttempt])
  else (false, [])

/-- notifications.py:138-153 — `notify`: `success` starts `True`, is and-ed
with the Telegram result when the bot is initialized, then and-ed with the
email result.  Never raises: every transport outcome, including the raising
ones, is mapped to a boolean.  Returns the result and all attempts made. -/
def notify (env : NotifyEnv) : Bool × List AttemptKind :=
  let tg := if env.botInit then send_telegram env else (true, [])
  let em := send_email env
  (tg.1 && em.1, tg.2 ++ em.2)

/-! ## Post-login classification (scraper.py login) -/

/-- scraper.py:224 — URL patterns indicating a successful login. -/
def successPatterns : List String :=
  ["/jobs", "/dashboard", "/interpreter-portal", "/home"]

/-- scraper.py:269 — keywords searched in the lowercased page source. -/
def loginIndicators : List String :=
  ["logout", "welcome", "dashboard", "profile", "interpreter portal"]

/-- Environment of the post-login classification (scraper.py:216-280): the URL
after the login attempt, whether each selector of the post-login battery finds
an element within its timeout (scraper.py:237-254), the page source, and
whether the diagnostic screenshot capture and page-source read at
scraper.py:262-268 complete without raising. -/
structure LoginEnv where
  currentUrl : String
  elementFound : List Bool
  pageSource : String
  diagOk : Bool
deriving DecidableEq

/-- scraper.py:225-229 — signal (a): some success pattern occurs in the URL. -/
def urlSignal (env : LoginEnv) : Bool :=
  successPatterns.any (fun p => strIn p env.currentUrl)

/-- scraper.py:247-254 — signal (b): some post-login selector finds an
element. -/
def elementSignal (env : LoginEnv) : Bool :=
  env.elementFound.any (fun b => b)

/-- scraper.py:268-275 — signal (c): some login indicator occurs in the
lowercased page source. -/
def keywordSignal (env : LoginEnv) : Bool :=
  loginIndicators.any (fun k => strIn k (lowerStr env.pageSource))

/-- scraper.py:221-277 — the value of `successful_login` after the battery:
signal (b) is only consulted when (a) failed, and the block computing signal
(c) runs inside the same `try` as the screenshot capture, so a raising capture
leaves `successful_login` false. -/
def classifyLogin (env : LoginEnv) : Bool :=
  let s1 := urlSignal env
  let s2 := s1 || elementSignal env
  s2 || (env.diagOk && keywordSignal env)

/-- scraper.py:280-311 — the final decision of `login`: proceed as logged in
(navigate to the portal, return `True`) unless classification failed and the
URL still contains `"/login"`. -/
def loginDecision (env : LoginEnv) : Bool :=
  classifyLogin env || !(strIn "/login" env.currentUrl)

/-! ## Poll loop orchestrator (scraper.py run) -/

/-- Terminal behaviour of one cycle body of `run` (scraper.py:380-399): the
body raised an exception that escapes to the handler at scraper.py:401, or
`login()` returned `False`, or login succeeded and `check_jobs_direct`
returned a list of jobs. -/
inductive CycleOutcome where
  | raisedCycle
  | loginFailed
  | extracted (jobs : List Job)
deriving DecidableEq

/-- Observable record of one loop iteration: whether authentication and
extraction were attempted, how many jobs were handed to `process_new_jobs`,
and the sleep that followed. -/
structure CycleLog where
  loginAttempted : Bool
  extractAttempted : Bool
  notifiedCount : Nat
  sleepSecs : Nat
deriving DecidableEq

/-- scraper.py:380-403 — one iteration of the run loop: login is always
attempted first; a failed login sleeps 60 and continues; a caught exception
sleeps 60 and continues; a successful cycle notifies the new jobs and sleeps
30. -/
def runCycle : CycleOutcome → CycleLog
  | CycleOutcome.raisedCycle => ⟨true, false, 0, 60⟩
  | CycleOutcome.loginFailed => ⟨true, false, 0, 60⟩
  | CycleOutcome.extracted js => ⟨true, true, js.length, 30⟩

/-- scraper.py:380-403 — the `while True` loop over a schedule of cycle
outcomes: no outcome breaks the loop, so every scheduled cycle produces a log
entry. -/
def runLoop : List CycleOutcome → List CycleLog
  | [] => []
  | o :: os => runCycle o :: runLoop os

/-! ## Seen-set / notification ordering within one cycle -/

/-- The two observable dedup/notify events for one id. -/
inductive Ev where
  | markEv (id : Option String)
  | attemptEv (id : Option String)
deriving DecidableEq

/-- The event trace of one cycle: `check_jobs_direct` adds each new id to the
seen set while extracting its row (scraper.py:585), and only after the whole
pass returns does `process_new_jobs` dispatch one notification attempt per
returned job, in the same order (scraper.py:351-370, scraper.py:390-394). -/
def cycleTrace (seen : List (Option String)) (rows : List Row) : List Ev :=
  (newJobs seen rows).map (fun j => Ev.markEv j.id)
    ++ (newJobs seen rows).map (fun j => Ev.attemptEv j.id)

/-! ## Concrete fixtures used by counterexamples and witnesses -/

/-- The spec's heuristic-fallback test row: four cells, no semantic markers. -/
def exampleCells : List Cell :=
  [⟨none, "12345"⟩, ⟨none, "10:00 AM"⟩, ⟨none, "60"⟩, ⟨none, "Acme Corp"⟩]

/-- A well-formed open-jobs row with a `row-id` attribute. -/
def rowA : Row :=
  ⟨some "J1", [⟨none, "J1"⟩, ⟨none, "Client A"⟩, ⟨none, "10:00 AM"⟩, ⟨none, "60"⟩], false⟩

/-- A second well-formed row with a different `row-id` attribute. -/
def rowB : Row :=
  ⟨some "J2", [⟨none, "J2"⟩, ⟨none, "Client B"⟩, ⟨none, "11:00 AM"⟩, ⟨none, "30"⟩], false⟩

/-- An identifier-less well-formed row: no `row-id` attribute, no `requestID`
cell. -/
def rowNoId : Row :=
  ⟨none, [⟨none, "x"⟩, ⟨none, "Client C"⟩, ⟨none, "1:00 PM"⟩, ⟨none, "45"⟩], false⟩

/-- A second identifier-less row with different cell contents. -/
def rowNoId' : Row :=
  ⟨none, [⟨none, "y"⟩, ⟨none, "Client D"⟩, ⟨none, "2:00 PM"⟩, ⟨none, "15"⟩], false⟩

/-- A post-login environment in which the URL and element signals fail, the
page text does contain a login indicator, the diagnostic capture raises, and
the URL still shows the login surface. -/
def loginEnvCX : LoginEnv :=
  ⟨"https://kyrm.lspware.com/scheduler/#/login",
   [false, false, false, false, false, false, false], "Welcome", false⟩

/-! ## Helper lemmas -/

lemma openRowJob_id (r : Row) :
    (openRowJob r).id = (colIdPass r.rowId "" "" "" r.cells).1 := rfl

lemma colIdPass_jid (cells : List Cell) :
    ∀ (jid : Option String) (c t d : String),
      (∀ x ∈ cells, x.colId ≠ some "requestID") →
      (colIdPass jid c t d cells).1 = jid := by
  induction cells with
  | nil => intro jid c t d _; rfl
  | cons x xs ih =>
    intro jid c t d h
    have hx : x.colId ≠ some "requestID" := h x (List.mem_cons_self x xs)
    have hxs : ∀ y ∈ xs, y.colId ≠ some "requestID" :=
      fun y hy => h y (List.mem_cons_of_mem x hy)
    simp only [colIdPass]
    split_ifs with h1 h2 h3 h4
    · exact absurd h1.1 hx
    · exact ih _ _ _ _ hxs
    · exact ih _ _ _ _ hxs
    · exact ih _ _ _ _ hxs
    · exact ih _ _ _ _ hxs

lemma closedColIdPass_none (cells : List Cell) :
    ∀ (jid : Option String) (c t d : String),
      (∀ x ∈ cells, x.colId = none) →
      closedColIdPass jid c t d cells = (jid, c, t, d) := by
  induction cells with
  | nil => intro jid c t d _; rfl
  | cons x xs ih =>
    intro jid c t d h
    have hx : x.colId = none := h x (List.mem_cons_self x xs)
    have hxs : ∀ y ∈ xs, y.colId = none :=
      fun y hy => h y (List.mem_cons_of_mem x hy)
    simp only [closedColIdPass, hx]
    simp only [reduceCtorEq, false_and, if_false, false_or, or_self]
    exact ih _ _ _ _ hxs

lemma seenAfter_mono (x : Option String) :
    ∀ (rows : List Row) (seen : List (Option String)),
      x ∈ seen → x ∈ seenAfter seen rows := by
  intro rows
  induction rows with
  | nil => intro seen hx; simpa [seenAfter] using hx
  | cons r rs ih =>
    intro seen hx
    simp only [seenAfter]
    split_ifs with h1 h2 h3
    · exact ih seen hx
    · exact ih _ (by simp [markSeen]; right; exact hx)
    · exact ih seen hx
    · exact ih seen hx

lemma mem_newJobs_seenAfter (id : Option String) :
    ∀ (rows : List Row) (seen : List (Option String)),
      id ∈ (newJobs seen rows).map Job.id → id ∈ seenAfter seen rows := by
  intro rows
  induction rows with
  | nil => intro seen h; simp [newJobs] at h
  | cons r rs ih =>
    intro seen h
    simp only [newJobs, seenAfter] at h ⊢
    split_ifs at h ⊢ with h1 h2 h3
    · exact ih seen h
    · rw [List.map_cons, List.mem_cons] at h
      rcases h with h | h
      · exact seenAfter_mono id rs _ (by simp [markSeen, h])
      · exact ih _ h
    · exact ih seen h
    · exact ih seen h

lemma newJobs_count_zero (id : Option String) :
    ∀ (rows : List Row) (seen : List (Option String)),
      id ∈ seen → ((newJobs seen rows).map Job.id).count id = 0 := by
  intro rows
  induction rows with
  | nil => intro seen _; simp [newJobs]
  | cons r rs ih =>
    intro seen hid
    simp only [newJobs]
    split_ifs with h1 h2 h3
    · exact ih seen hid
    · have hne : id ≠ (openRowJob r).id := by
        intro he
        rw [← he] at h3
        simp [isNewId, hid] at h3
      rw [List.map_cons, List.count_cons_of_ne hne]
      exact ih _ (by simp [markSeen]; right; exact hid)
    · exact ih seen hid
    · exact ih seen hid

lemma newJobs_count_le_one (id : Option String) :
    ∀ (rows : List Row) (seen : List (Option String)),
      ((newJobs seen rows).map Job.id).count id ≤ 1 := by
  intro rows
  induction rows with
  | nil => intro seen; simp [newJobs]
  | cons r rs ih =>
    intro seen
    simp only [newJobs]
    split_ifs with h1 h2 h3
    · exact ih seen
    · rw [List.map_cons]
      by_cases he : (openRowJob r).id = id
      · subst he
        rw [List.count_cons_self]
        have h0 := newJobs_count_zero (openRowJob r).id rs
          (markSeen seen (openRowJob r).id) (by simp [markSeen])
        omega
      · rw [List.count_cons_of_ne (fun h => he h.symm)]
        exact ih _
    · exact ih seen
    · exact ih seen

lemma checkJobsDirect_seen_mono (x : Option String) (e : OpenEnv)
    (seen : List (Option String)) :
    x ∈ seen → x ∈ (checkJobsDirect seen e).2 := by
  intro hx
  cases h : e.gridPath with
  | error u => simpa [checkJobsDirect, h] using hx
  | ok rows => simpa [checkJobsDirect, h] using seenAfter_mono x rows seen hx

lemma runNotified_count_zero (id : Option String) :
    ∀ (envs : List OpenEnv) (seen : List (Option String)),
      id ∈ seen → ((runNotified seen envs).map Job.id).count id = 0 := by
  intro envs
  induction envs with
  | nil => intro seen _; simp [runNotified]
  | cons e es ih =>
    intro seen hid
    simp only [runNotified, List.map_append, List.count_append]
    have h1 : ((checkJobsDirect seen e).1.map Job.id).count id = 0 := by
      cases h : e.gridPath with
      | error u => simp [checkJobsDirect, h]
      | ok rows => simpa [checkJobsDirect, h] using newJobs_count_zero id rows seen hid
    have h2 := ih (checkJobsDirect seen e).2 (checkJobsDirect_seen_mono id e seen hid)
    omega

lemma runNotified_count_le_one (id : Option String) :
    ∀ (envs : List OpenEnv) (seen : List (Option String)),
      ((runNotified seen envs).map Job.id).count id ≤ 1 := by
  intro envs
  induction envs with
  | nil => intro seen; simp [runNotified]
  | cons e es ih =>
    intro seen
    simp only [runNotified, List.map_append, List.count_append]
    by_cases hmem : id ∈ (checkJobsDirect seen e).1.map Job.id
    · have hseen : id ∈ (checkJobsDirect seen e).2 := by
        cases h : e.gridPath with
        | error u => simp [checkJobsDirect, h] at hmem
        | ok rows =>
          simp only [checkJobsDirect, h] at hmem ⊢
          exact mem_newJobs_seenAfter id rows seen hmem
      have h1 : ((checkJobsDirect seen e).1.map Job.id).count id ≤ 1 := by
        cases h : e.gridPath with
        | error u => simp [checkJobsDirect, h]
        | ok rows => simpa [checkJobsDirect, h] using newJobs_count_le_one id rows seen
      have h2 := runNotified_count_zero id es (checkJobsDirect seen e).2 hseen
      omega
    · have h1 : ((checkJobsDirect seen e).1.map Job.id).count id = 0 :=
        List.count_eq_zero.mpr hmem
      have h2 := ih (checkJobsDirect seen e).2
      omega

lemma runLoop_eq_map (os : List CycleOutcome) : runLoop os = os.map runCycle := by
  induction os with
  | nil => rfl
  | cons o os ih => simp [runLoop, ih]

/-! ## Claim theorems -/

/-- Claim C1: within one process lifetime each distinct job id triggers at
most one notification attempt sequence — over any sequence of extraction
cycles started from the empty seen set, every id occurs at most once among
the jobs handed to the notification dispatcher; and `is_new` (the dedup
membership test) returns false for any id after a prior `mark_seen` of it. -/
theorem dedup_never_renotifies :
    (∀ (envs : List OpenEnv) (id : Option String),
       ((runNotified [] envs).map Job.id).count id ≤ 1) ∧
    (∀ (seen : List (Option String)) (i : Option String),
       isNewId (markSeen seen i) i = false) := by
  constructor
  · intro envs id
    exact runNotified_count_le_one id envs []
  · intro seen i
    simp [isNewId, markSeen]

/-- Claim C2 (amended): an id is added to the seen set during extraction,
before the notification attempt for it is dispatched — in every cycle's
event trace every seen-set addition precedes every notification attempt, and
each attempted id was added to the seen set earlier in the same cycle. -/
theorem seen_added_before_attempt (seen : List (Option String)) (rows : List Row) :
    (∀ (i j : Nat) (idm ida : Option String),
       (cycleTrace seen rows)[i]? = some (Ev.markEv idm) →
       (cycleTrace seen rows)[j]? = some (Ev.attemptEv ida) → i < j) ∧
    (∀ id : Option String,
       Ev.attemptEv id ∈ cycleTrace seen rows →
       Ev.markEv id ∈ cycleTrace seen rows) := by
  constructor
  · intro i j idm ida hi hj
    have hilt : i < ((newJobs seen rows).map (fun j => Ev.markEv j.id)).length := by
      by_contra hge
      push_neg at hge
      rw [cycleTrace, List.getElem?_append_right hge] at hi
      rcases List.mem_map.mp (List.getElem?_mem hi) with ⟨a, _, ha⟩
      simp at ha
    have hjge : ((newJobs seen rows).map (fun j => Ev.markEv j.id)).length ≤ j := by
      by_contra hlt
      push_neg at hlt
      rw [cycleTrace, List.getElem?_append_left hlt] at hj
      rcases List.mem_map.mp (List.getElem?_mem hj) with ⟨a, _, ha⟩
      simp at ha
    omega
  · intro id h
    rw [cycleTrace, List.mem_append] at h
    rcases h with h | h
    · rcases List.mem_map.mp h with ⟨a, _, ha⟩
      simp at ha
    · rcases List.mem_map.mp h with ⟨a, hamem, ha⟩
      rw [cycleTrace, List.mem_append]
      left
      refine List.mem_map.mpr ⟨a, hamem, ?_⟩
      simp only [Ev.attemptEv.injEq] at ha
      simp [ha]

/-- Claim C2 witness: the ordering theorem instantiated on a concrete cycle
extracting one fresh row. -/
theorem seen_added_before_attempt_witness :
    (0 : Nat) < 1 ∧ Ev.markEv (some "J1") ∈ cycleTrace [] [rowA] :=
  ⟨(seen_added_before_attempt [] [rowA]).1 0 1 (some "J1") (some "J1")
      (by decide) (by decide),
   (seen_added_before_attempt [] [rowA]).2 (some "J1") (by decide)⟩

/-- Claim C2 counterexample: on a cycle extracting one fresh row, the id
enters the seen set (its mark event sits at trace index 0) with no prior
notification attempt for it, refuting "an id is added to the seen set only
after a notification attempt has been dispatched for it". -/
theorem seen_added_before_attempt_cx :
    ¬ (∀ (i : Nat) (id : Option String),
        (cycleTrace [] [rowA])[i]? = some (Ev.markEv id) →
        ∃ j : Nat, j < i ∧ (cycleTrace [] [rowA])[j]? = some (Ev.attemptEv id)) := by
  intro hclaim
  rcases hclaim 0 (some "J1") (by decide) with ⟨j, hj, _⟩
  omega

/-- Claim C3 (amended): the telegram dispatcher makes at most 2 delivery
attempts — the bot-library attempt (when the bot is initialized), then one
direct HTTP API attempt — short-circuiting on first success and with no
inter-attempt delay; a transport whose bot attempt fails makes exactly the
two attempts and succeeds iff the API attempt returns status 200. -/
theorem telegram_attempt_bound (env : NotifyEnv) (hb : env.botInit = true) :
    ((send_telegram env).2.length ≤ 2) ∧
    (env.botOk = true → send_telegram env = (true, [AttemptKind.botAttempt])) ∧
    (env.botOk = false →
      (send_telegram env).2 = [AttemptKind.botAttempt, AttemptKind.apiAttempt] ∧
      ((send_telegram env).1 = true ↔ env.api = ApiResult.status 200)) := by
  cases hbo : env.botOk <;> cases hapi : env.api <;>
    simp [send_telegram, hb, hbo, hapi]

/-- Claim C3 witness: the bound instantiated at a concrete transport whose
bot attempt fails and whose API attempt returns status 500. -/
theorem telegram_attempt_bound_witness :
    ((send_telegram ⟨true, false, ApiResult.status 500, true, true⟩).2
        = [AttemptKind.botAttempt, AttemptKind.apiAttempt]) ∧
    ((send_telegram ⟨true, false, ApiResult.status 500, true, true⟩).1 = true ↔
      ApiResult.status 500 = ApiResult.status 200) :=
  (telegram_attempt_bound ⟨true, false, ApiResult.status 500, true, true⟩ rfl).2.2 rfl

/-- Claim C3 counterexample: a transport whose first two attempts fail and
whose third attempt succeeds — the telegram dispatcher stops after exactly 2
failed attempts (it never makes a 3rd telegram attempt and the code contains
no inter-attempt sleep), and notify, whose third and last attempt (the email
one) succeeds, returns False, not the claimed True after 3 attempts. -/
theorem telegram_attempt_bound_cx :
    send_telegram ⟨true, false, ApiResult.status 500, true, true⟩
        = (false, [AttemptKind.botAttempt, AttemptKind.apiAttempt]) ∧
    notify ⟨true, false, ApiResult.status 500, true, true⟩
        = (false, [AttemptKind.botAttempt, AttemptKind.apiAttempt,
                   AttemptKind.emailAttempt]) := by
  decide

/-- Claim C4 (amended): notify returns true iff every channel's dispatch
succeeded — the telegram send when the bot is initialized, and the email
send, an unconfigured email channel counting as failure; notify is total over
all transport outcomes (raising transports are mapped to False inside the
channel functions), embedding that it never raises. -/
theorem notify_requires_all_channels (env : NotifyEnv) :
    (notify env).1 = true ↔
      ((env.botInit = true → (send_telegram env).1 = true) ∧
        env.emailConfigured = true ∧ env.emailOk = true) := by
  cases hbi : env.botInit <;> cases hec : env.emailConfigured <;>
    cases heo : env.emailOk <;>
      simp [notify, send_email, hbi, hec, heo]

/-- Claim C4 witness: the characterization instantiated at a fully succeeding
environment. -/
theorem notify_requires_all_channels_witness :
    (notify ⟨true, true, ApiResult.status 200, true, true⟩).1 = true :=
  (notify_requires_all_channels ⟨true, true, ApiResult.status 200, true, true⟩).mpr
    ⟨fun _ => by decide, rfl, rfl⟩

/-- Claim C4 counterexample: the telegram attempt succeeds — at least one
delivery attempt on some channel succeeded — yet notify returns False because
the failing (unconfigured) email channel is and-ed into the result. -/
theorem notify_requires_all_channels_cx :
    (send_telegram ⟨true, true, ApiResult.status 200, false, true⟩).1 = true ∧
    (notify ⟨true, true, ApiResult.status 200, false, true⟩).1 = false := by
  decide

/-- Claim C5 (amended): the open-jobs extraction has a single structural
strategy — when it raises, check_jobs_direct returns [] without attempting
any other strategy; selector-chain fallthrough holds in the closed-jobs
row-locating chain: a selector that raises, or that yields no rows, falls
through to the next selector, and a second selector yielding rows makes the
chain return exactly those rows after attempting exactly 2 selectors. -/
theorem strategy_fallthrough :
    (∀ (seen : List (Option String)) (tab : List Bool),
       checkJobsDirect seen ⟨tab, Except.error ()⟩ = ([], seen)) ∧
    (∀ (g : List Row) (rest : List SelOutcome), g ≠ [] →
       rowChain (SelOutcome.raisedSel :: SelOutcome.found g [] :: rest) = (g, 2)) ∧
    (∀ (g : List Row) (rest : List SelOutcome), g ≠ [] →
       rowChain (SelOutcome.found [] [] :: SelOutcome.found g [] :: rest) = (g, 2)) := by
  refine ⟨fun seen tab => rfl, fun g rest hg => ?_, fun g rest hg => ?_⟩
  · simp [rowChain, hg]
  · simp [rowChain, hg]

/-- Claim C5 witness: the fallthrough theorem instantiated at a raising first
selector and a second selector yielding two concrete rows. -/
theorem strategy_fallthrough_witness :
    checkJobsDirect [] ⟨[false, false, false, false], Except.error ()⟩ = ([], []) ∧
    rowChain [SelOutcome.raisedSel, SelOutcome.found [rowA, rowB] [],
      SelOutcome.found [rowNoId] []] = ([rowA, rowB], 2) :=
  ⟨strategy_fallthrough.1 [] [false, false, false, false],
   strategy_fallthrough.2.1 [rowA, rowB] [SelOutcome.found [rowNoId] []] (by decide)⟩

/-- Claim C5 counterexample: one page where the structural strategy of
check_jobs_direct raises while a generic closed-jobs row selector sees two
valid rows — the open-jobs extract() returns [], not those two rows: the
extraction pass is aborted rather than continued with another strategy. -/
theorem strategy_fallthrough_cx :
    (checkJobsDirect [] ⟨[false, false, false, false], Except.error ()⟩).1 = [] ∧
    (rowChain [SelOutcome.raisedSel, SelOutcome.found [rowA, rowB] [],
        SelOutcome.found [] []]).1 = [rowA, rowB] ∧
    ([] : List Job) ≠ [openRowJob rowA, openRowJob rowB] := by
  refine ⟨rfl, by decide, by decide⟩

/-- Claim C6 (amended): only the closed-jobs path applies content-shape
heuristics before positional assignment: there, a row whose cells all lack
col-id markers is mapped by the heuristic pass followed by the positional
pass, and the spec's example row maps to client "Acme Corp", scheduled time
"10:00 AM", duration "60"; the open-jobs path instead falls directly back to
positional assignment (see the counterexample). -/
theorem heuristic_fallback_closed :
    closedFields none exampleCells = ("Acme Corp", "10:00 AM", "60") ∧
    (∀ (jid : Option String) (cells : List Cell),
       (∀ c ∈ cells, c.colId = none) →
       closedFields jid cells =
         closedPositional (cells.map Cell.text)
           (heuristicPass "" "" "" (cells.map Cell.text)).1
           (heuristicPass "" "" "" (cells.map Cell.text)).2.1
           (heuristicPass "" "" "" (cells.map Cell.text)).2.2) := by
  constructor
  · decide
  · intro jid cells h
    simp [closedFields, closedColIdPass_none cells jid "" "" "" h]

/-- Claim C6 witness: the heuristics-before-positional equation instantiated
at the spec's example row. -/
theorem heuristic_fallback_closed_witness :
    closedFields none exampleCells =
      closedPositional (exampleCells.map Cell.text)
        (heuristicPass "" "" "" (exampleCells.map Cell.text)).1
        (heuristicPass "" "" "" (exampleCells.map Cell.text)).2.1
        (heuristicPass "" "" "" (exampleCells.map Cell.text)).2.2 :=
  heuristic_fallback_closed.2 none exampleCells (by decide)

/-- Claim C6 counterexample: the open-jobs path maps the same marker-less row
purely positionally — client_name gets the time-shaped cell "10:00 AM"
instead of "Acme Corp", the date field gets "60", the duration field gets
"Acme Corp" — refuting heuristics-before-positional for every extracted
row. -/
theorem heuristic_fallback_cx :
    (openRowJob ⟨none, exampleCells, false⟩).client = "10:00 AM" ∧
    (openRowJob ⟨none, exampleCells, false⟩).date = "60" ∧
    (openRowJob ⟨none, exampleCells, false⟩).duration = "Acme Corp" ∧
    ("10:00 AM" : String) ≠ "Acme Corp" := by
  decide

/-- Claim C7: an exception escaping a cycle body is caught at the loop
boundary, followed by a 60-second cooldown, and the loop continues: the loop
log has an entry for every scheduled cycle (the loop never terminates on its
own), every cycle begins with a login attempt, a raising cycle sleeps 60
seconds, and the cycle following a raising cycle attempts login and — when
its login succeeds — extraction, then sleeps the normal 30 seconds. -/
theorem loop_resilience :
    (∀ os : List CycleOutcome, (runLoop os).length = os.length) ∧
    (∀ o : CycleOutcome, (runCycle o).loginAttempted = true) ∧
    (∀ (pre post : List CycleOutcome),
       (runLoop (pre ++ CycleOutcome.raisedCycle :: post))[pre.length]?
         = some ⟨true, false, 0, 60⟩) ∧
    (∀ (pre post : List CycleOutcome) (js : List Job),
       (runLoop (pre ++ CycleOutcome.raisedCycle ::
           CycleOutcome.extracted js :: post))[pre.length + 1]?
         = some ⟨true, true, js.length, 30⟩) := by
  refine ⟨?_, ?_, ?_, ?_⟩
  · intro os
    rw [runLoop_eq_map]
    simp
  · intro o
    cases o <;> rfl
  · intro pre post
    rw [runLoop_eq_map, List.map_append, List.getElem?_append_right (by simp)]
    simp [runCycle]
  · intro pre post js
    rw [runLoop_eq_map, List.map_append, List.getElem?_append_right (by simp)]
    simp [runCycle]

/-- Claim C8 (amended): login classification is fail-open with one proviso:
the attempt is classified failed exactly when the URL-pattern signal and the
post-login-element signal fail, the keyword signal fails or is skipped
because the diagnostic screenshot capture raises, and the current URL still
contains "/login"; in every other case the attempt proceeds as success. -/
theorem fail_open_classification (env : LoginEnv) :
    loginDecision env = false ↔
      (urlSignal env = false ∧ elementSignal env = false ∧
        (env.diagOk = false ∨ keywordSignal env = false) ∧
        strIn "/login" env.currentUrl = true) := by
  cases hu : urlSignal env <;> cases he : elementSignal env <;>
    cases hd : env.diagOk <;> cases hk : keywordSignal env <;>
      cases hs : strIn "/login" env.currentUrl <;>
        simp [loginDecision, classifyLogin, hu, he, hd, hk, hs]

/-- Claim C8 counterexample: the keyword success signal holds — the page text
contains the indicator "welcome" — but the diagnostic screenshot capture
raises, so the check is skipped and login is classified failed although a
success signal succeeded, refuting the "exactly when none of the success
signals succeed" claim. -/
theorem fail_open_classification_cx :
    loginDecision loginEnvCX = false ∧ keywordSignal loginEnvCX = true := by
  decide

/-- Claim C9 (amended): a missing client_name defaults to "Unknown Client",
and location defaults to client_name only when client_name is present; when
client_name is missing, location defaults to "Unknown Location", not to the
defaulted client name — in both record builders. -/
theorem default_fields (jid : Option String) (client time dur : String)
    (texts : List String) :
    (client ≠ "" →
      (mkOpenJob jid client time dur).client = client ∧
      (mkOpenJob jid client time dur).location = client ∧
      (mkClosedJob jid client time dur texts).location = client) ∧
    (client = "" →
      (mkOpenJob jid client time dur).client = "Unknown Client" ∧
      (mkOpenJob jid client time dur).location = "Unknown Location" ∧
      (mkClosedJob jid client time dur texts).client = "Unknown Client" ∧
      (mkClosedJob jid client time dur texts).location = "Unknown Location") := by
  constructor
  · intro h
    simp [mkOpenJob, mkClosedJob, orElseStr, h]
  · intro h
    simp [mkOpenJob, mkClosedJob, orElseStr, h]

/-- Claim C9 witness: the defaulting theorem instantiated at a present and at
a missing client name. -/
theorem default_fields_witness :
    ((mkOpenJob none "Acme Corp" "t" "d").location = "Acme Corp") ∧
    ((mkOpenJob none "" "t" "d").location = "Unknown Location") :=
  ⟨((default_fields none "Acme Corp" "t" "d" []).1 (by decide)).2.1,
   ((default_fields none "" "t" "d" []).2 rfl).2.1⟩

/-- Claim C9 counterexample: with client_name missing, the code sets client to
"Unknown Client" but location to "Unknown Location" — location does not equal
the defaulted client_name. -/
theorem default_fields_cx :
    (mkOpenJob none "" "10:00 AM" "60").client = "Unknown Client" ∧
    (mkOpenJob none "" "10:00 AM" "60").location = "Unknown Location" ∧
    (mkClosedJob none "" "10:00 AM" "60" []).location = "Unknown Location" ∧
    ("Unknown Location" : String) ≠ "Unknown Client" := by
  decide

/-- Claim C10: an open-jobs row with neither a row-id attribute nor a
requestID cell gets the identifier none, and all such rows share that one
dedup identity: over any whole run at most one notification carries the none
identity — after the first identifier-less row is marked seen, every later
one is classified as already seen and dropped without notification. -/
theorem identifierless_rows_share_identity :
    (∀ r : Row, r.rowId = none →
       (∀ c ∈ r.cells, c.colId ≠ some "requestID") →
       (openRowJob r).id = none) ∧
    (∀ envs : List OpenEnv,
       ((runNotified [] envs).map Job.id).count (none : Option String) ≤ 1) := by
  constructor
  · intro r hr hcells
    rw [openRowJob_id, colIdPass_jid r.cells r.rowId "" "" "" hcells, hr]
  · intro envs
    exact runNotified_count_le_one none envs []

/-- Claim C10 witness: the theorem instantiated at a concrete identifier-less
row and a run extracting two identifier-less rows. -/
theorem identifierless_rows_share_identity_witness :
    (openRowJob rowNoId).id = none ∧
    ((runNotified [] [⟨[], Except.ok [rowNoId, rowNoId']⟩]).map Job.id).count
      (none : Option String) ≤ 1 :=
  ⟨identifierless_rows_share_identity.1 rowNoId rfl (by decide),
   identifierless_rows_share_identity.2 [⟨[], Except.ok [rowNoId, rowNoId']⟩]⟩

end LSP
